import Mathlib

/-!
Verification development for the stream-decoding and compressed-object-extraction
core (src/object/stream.rs).  Byte buffers are modelled as `List Nat`
(byte values), Rust `Result` as the `PResult` type below, and a Rust
runtime panic as the distinguished `PResult.crash` outcome, so that a
recoverable error and a process crash are different values.
External collaborators that are part of the repository but not under
src/ (the primitive-value conversions, the resolver, the lexer, the
filter codec registry) are modelled from the spec where noted.
-/

namespace Pdf

/-- Primitive value model (spec section 3): the tagged union of values a
dictionary entry can hold. -/
inductive Primitive where
  | null
  | int (n : Int)
  | name (s : String)
  | array (xs : List Primitive)
  | dict (d : List (String × Primitive))
  | ref (id : Nat)
  | stream (d : List (String × Primitive)) (data : List Nat)

/-- A dictionary: an association list from key names to primitive values. -/
abbrev Dict := List (String × Primitive)

/-- Error kinds surfaced by this core (spec section 7 plus the source's
`ErrorKind` variants used in stream.rs). -/
inductive PdfError where
  | entryNotFound (key : String)
  | typeMismatch
  | objStmOutOfBounds (index : Nat) (max : Nat)
  | malformedTokenStream
  | filterDecodeFailure (kind : String)
  | other (msg : String)

/-- Outcome of a fallible Rust computation: `ok` and `err` embed
`Result::Ok` / `Result::Err`; `crash` embeds a runtime panic (from
`panic!`, `assert_eq!`, or an out-of-range slice index), which in Rust
aborts the caller and is not a recoverable value. -/
inductive PResult (α : Type) where
  | ok (a : α)
  | err (e : PdfError)
  | crash (msg : String)

/-- Monadic bind on `PResult`: embeds Rust's `?` operator; a crash
propagates just as unwinding does. -/
def PResult.bind {α β : Type} : PResult α → (α → PResult β) → PResult β
  | .ok a, f => f a
  | .err e, _ => .err e
  | .crash m, _ => .crash m

instance : Monad PResult where
  pure := PResult.ok
  bind := PResult.bind

/-- A filter descriptor: a decode-algorithm name plus its parameter
dictionary (the source's `StreamFilter`, whose construction lives outside
src/; spec section 3, FilterDescriptor). -/
structure StreamFilter where
  kind : String
  params : Dict

/-- Modelled from the spec: `FileSpec` is an opaque reference to
externally stored stream data (spec section 3); its structure is owned by a
collaborator outside src/, so it is kept as an opaque wrapper. -/
structure FileSpec where
  raw : Primitive

/-- The generic stream container (stream.rs lines 13-39): filter chain,
optional external file, external-file filters, specialized info, and the
owned byte buffer. -/
structure Stream (T : Type) where
  filters : List StreamFilter
  file : Option FileSpec
  file_filters : List StreamFilter
  info : T
  data : List Nat

/-- The resolver collaborator (spec section 6): maps an indirect-reference
id to the referenced primitive value. -/
abbrev Resolve := Nat → PResult Primitive

/-- The filter codec registry collaborator (spec section 6): given a filter
descriptor and a byte buffer, returns decoded bytes or a codec error.
This is the free function `decode(data, filter)` called by
`Stream::decode`; it lives outside src/, so theorems quantify over it. -/
abbrev Codec := StreamFilter → List Nat → PResult (List Nat)

/-- Modelled from the spec: transparent indirect-reference resolution
(spec section 4.1) as performed inside the conversion protocol, which lives
outside src/. A literal is returned as is; a reference is looked up. -/
def resolvePrim (resolve : Resolve) : Primitive → PResult Primitive
  | .ref n => resolve n
  | p => .ok p

/-- Look a key up in a dictionary. -/
def dictGet (d : Dict) (k : String) : Option Primitive :=
  (d.find? (fun kv => kv.fst == k)).map Prod.snd

/-- Remove a key from a dictionary (the value-returning half of the
source's `dict.remove` is `dictGet`). -/
def dictRemove (d : Dict) (k : String) : Dict :=
  d.filter (fun kv => !(kv.fst == k))

/-- Embeds `dict.remove(key).ok_or(EntryNotFound)` from the source: the
value under a required key, or the missing-key error naming it. -/
def requireKey (d : Dict) (k : String) : PResult Primitive :=
  match dictGet d k with
  | some v => .ok v
  | none => .err (.entryNotFound k)

/-- Modelled from the spec: `usize::from_primitive` (primitive.rs is not
under src/); an integer, resolved if indirect, rejected when negative or
of a non-integer shape (spec sections 4.1 and 6). -/
def usizeFromPrimitive (resolve : Resolve) (p : Primitive) : PResult Nat := do
  let q ← resolvePrim resolve p
  match q with
  | .int n => if n < 0 then .err .typeMismatch else .ok n.toNat
  | _ => .err .typeMismatch

/-- Modelled from the spec: `i32::from_primitive` (outside src/); an
integer, resolved if indirect (spec sections 4.1 and 6). -/
def i32FromPrimitive (resolve : Resolve) (p : Primitive) : PResult Int := do
  let q ← resolvePrim resolve p
  match q with
  | .int n => .ok n
  | _ => .err .typeMismatch

/-- A primitive expected to be a name. -/
def primToName : Primitive → PResult String
  | .name s => .ok s
  | _ => .err .typeMismatch

/-- A primitive expected to be a dictionary. -/
def primToDict : Primitive → PResult Dict
  | .dict d => .ok d
  | _ => .err .typeMismatch

/-- Modelled from the spec: `Vec::<String>::from_primitive` (outside
src/); the `Filter` key holds a name or an array of names (spec section 6),
and the source substitutes `Primitive::Null` for absent optional keys, so
null yields the empty list. -/
def vecStringFromPrimitive (resolve : Resolve) (p : Primitive) : PResult (List String) := do
  let q ← resolvePrim resolve p
  match q with
  | .null => pure []
  | .name s => pure [s]
  | .array xs => xs.mapM primToName
  | _ => .err .typeMismatch

/-- Modelled from the spec: `Vec::<Dictionary>::from_primitive` (outside
src/); `DecodeParms` holds a dictionary or an array of dictionaries
(spec section 6); null yields the empty list. -/
def vecDictFromPrimitive (resolve : Resolve) (p : Primitive) : PResult (List Dict) := do
  let q ← resolvePrim resolve p
  match q with
  | .null => pure []
  | .dict d => pure [d]
  | .array xs => xs.mapM primToDict
  | _ => .err .typeMismatch

/-- Modelled from the spec: `Option::<FileSpec>::from_primitive` (outside
src/); null yields none, anything else is kept opaque (spec section 3). -/
def optFileSpecFromPrimitive (resolve : Resolve) (p : Primitive) : PResult (Option FileSpec) := do
  let q ← resolvePrim resolve p
  match q with
  | .null => pure none
  | r => pure (some ⟨r⟩)

/-- The raw-stream pair produced by the raw-stream parsing collaborator:
the stream's dictionary plus its raw bytes. -/
structure PdfStream where
  info : Dict
  data : List Nat

/-- Modelled from the spec: `PdfStream::from_primitive` (outside src/),
the raw-stream parser of spec section 6: from a primitive stream token it
produces the dictionary and raw-byte pair. -/
def PdfStream.from_primitive (resolve : Resolve) (p : Primitive) : PResult PdfStream := do
  let q ← resolvePrim resolve p
  match q with
  | .stream d bytes => pure ⟨d, bytes⟩
  | _ => .err .typeMismatch

/-- Modelled from the spec: `StreamFilter::from_kind_and_params` (outside
src/) builds one filter descriptor by pairing a declared filter name with
its parameter dictionary (spec sections 3 and 4.2). -/
def StreamFilter.from_kind_and_params (kind : String) (params : Dict) : PResult StreamFilter :=
  .ok ⟨kind, params⟩

/-- Embeds the filter-chain construction loop of `Stream::from_primitive`
(stream.rs lines 127-133): walk the declared names with their index `i`,
pair each with `decode_params.get(i)` (an absent entry gives an empty
dictionary), and push the resulting descriptor, propagating failure. -/
def buildFiltersAux (params : List Dict) : List String → Nat → PResult (List StreamFilter)
  | [], _ => .ok []
  | f :: fs, i =>
    match StreamFilter.from_kind_and_params f ((params[i]?).getD []) with
    | .ok sf =>
      match buildFiltersAux params fs (i + 1) with
      | .ok rest => .ok (sf :: rest)
      | .err e => .err e
      | .crash m => .crash m
    | .err e => .err e
    | .crash m => .crash m

/-- The filter-chain construction loop started at index 0. -/
def buildFilters (names : List String) (params : List Dict) : PResult (List StreamFilter) :=
  buildFiltersAux params names 0

/-- Embeds `Stream::<T>::from_primitive` (stream.rs lines 92-154):
parse the raw stream, take `Length` and check it against the byte count
with `assert_eq!` (a crash on mismatch, line 101), take `Filter`
(required) and the optional keys with a null default, build both filter
chains, and parse the specialized info from the remaining dictionary.
The specialized conversion `T::from_primitive` is passed in as `tFrom`. -/
def Stream.from_primitive {T : Type} (tFrom : Dict → PResult T) (resolve : Resolve)
    (p : Primitive) : PResult (Stream T) := do
  let pstream ← PdfStream.from_primitive resolve p
  let dict0 := pstream.info
  let lengthPrim ← requireKey dict0 "Length"
  let dict1 := dictRemove dict0 "Length"
  let length ← usizeFromPrimitive resolve lengthPrim
  if length = pstream.data.length then do
    let filterPrim ← requireKey dict1 "Filter"
    let dict2 := dictRemove dict1 "Filter"
    let filters ← vecStringFromPrimitive resolve filterPrim
    let decode_params ← vecDictFromPrimitive resolve ((dictGet dict2 "DecodeParms").getD .null)
    let dict3 := dictRemove dict2 "DecodeParms"
    let file ← optFileSpecFromPrimitive resolve ((dictGet dict3 "F").getD .null)
    let dict4 := dictRemove dict3 "F"
    let file_filters ← vecStringFromPrimitive resolve ((dictGet dict4 "FFilter").getD .null)
    let dict5 := dictRemove dict4 "FFilter"
    let file_decode_params ← vecDictFromPrimitive resolve ((dictGet dict5 "FDecodeParms").getD .null)
    let dict6 := dictRemove dict5 "FDecodeParms"
    let new_filters ← buildFilters filters decode_params
    let new_file_filters ← buildFilters file_filters file_decode_params
    let info ← tFrom dict6
    pure { filters := new_filters, file := file, file_filters := new_file_filters,
           info := info, data := pstream.data }
  else
    .crash "assertion failed: length == stream.data.len()"

/-- Embeds the loop body of `Stream::decode` (stream.rs lines 56-59):
apply each filter in declared order to the current buffer, replacing the
buffer with the output; the returned buffer alongside the outcome is the
state of `self.data` when the loop stops (the in-place mutation survives
an early return). The source also logs each filter to stderr, which is
not modelled. -/
def runFilters (codec : Codec) : List StreamFilter → List Nat → PResult Unit × List Nat
  | [], d => (.ok (), d)
  | f :: fs, d =>
    match codec f d with
    | .ok d2 => runFilters codec fs d2
    | .err e => (.err e, d)
    | .crash m => (.crash m, d)

/-- Embeds `Stream::decode` (stream.rs lines 55-62): run the filter loop;
on success clear the filter list; on failure return early with the
partially decoded buffer kept and the filter list untouched. The pair
returned is (the Rust return value, the stream after the call). -/
def Stream.decode {T : Type} (codec : Codec) (s : Stream T) : PResult Unit × Stream T :=
  match runFilters codec s.filters s.data with
  | (.ok _, d) => (.ok (), { s with data := d, filters := [] })
  | (.err e, d) => (.err e, { s with data := d })
  | (.crash m, d) => (.crash m, { s with data := d })

/-- Follows the spec's words (section 4.2, decode chain algorithm):
iterate the filter list in declared order, applying each filter's decode
transform to the current byte buffer and replacing the buffer with the
output; on any filter's failure, abort immediately and propagate that
filter's error. Stated separately from `runFilters` so the source's
decode can be compared against it. -/
def specChainDecode (codec : Codec) : List StreamFilter → List Nat → PResult (List Nat)
  | [], d => .ok d
  | f :: fs, d =>
    match codec f d with
    | .ok d2 => specChainDecode codec fs d2
    | .err e => .err e
    | .crash m => .crash m

/-- Embeds `Stream::get_filters` (stream.rs lines 71-73). -/
def Stream.get_filters {T : Type} (s : Stream T) : List StreamFilter :=
  s.filters

/-- Embeds `Stream::get_data` (stream.rs lines 77-82): a panic when the
filter chain is still non-empty, otherwise the stored buffer. -/
def Stream.get_data {T : Type} (s : Stream T) : PResult (List Nat) :=
  if (s.get_filters).length > 0 then
    .crash "Data not decoded! Consider using get_data_raw"
  else
    .ok s.data

/-- Embeds `Stream::get_data_raw` (stream.rs lines 84-86): the stored
buffer, with no decoding. -/
def Stream.get_data_raw {T : Type} (s : Stream T) : List Nat :=
  s.data

/-- Embeds `Stream::get_length` (stream.rs lines 68-70). -/
def Stream.get_length {T : Type} (s : Stream T) : Nat :=
  s.data.length

/-- The object-stream info record (stream.rs lines 165-187): object
count `N`, first-object byte offset `First`, optional `Extends`. -/
structure ObjStmInfo where
  num_objects : Int
  first : Int
  extends_ : Option Int

/-- Modelled from the spec: the derived `Object` conversion for
`ObjStmInfo` (the derive expansion is outside src/); reads the required
integer keys `N` and `First` and the optional `Extends`
(spec section 6). -/
def ObjStmInfo.from_dict (resolve : Resolve) (d : Dict) : PResult ObjStmInfo := do
  let nPrim ← requireKey d "N"
  let n ← i32FromPrimitive resolve nPrim
  let fPrim ← requireKey d "First"
  let first ← i32FromPrimitive resolve fPrim
  let ext ← match dictGet d "Extends" with
    | some v => do
        let e ← i32FromPrimitive resolve v
        pure (some e)
    | none => pure (none : Option Int)
  pure { num_objects := n, first := first, extends_ := ext }

/-- The object-stream container (stream.rs lines 190-196). -/
structure ObjectStream where
  stream : Stream ObjStmInfo
  offsets : List Nat
  id : Nat

/-- Rust's `as u64` / `as usize` cast from a signed value: reduction
modulo 2 to the 64. -/
def asU64 (n : Int) : Nat :=
  (n % 18446744073709551616).toNat

/-- Whitespace bytes separating tokens (space, tab, line feed, carriage
return, form feed, nul). -/
def isWhite (b : Nat) : Bool :=
  b == 32 || b == 9 || b == 10 || b == 13 || b == 12 || b == 0

/-- Modelled from the spec: one `lexer.next()` step of the token scanner
(parser::Lexer is outside src/). Spec section 6 describes it as producing a
finite sequence of whitespace-separated tokens consumed pairwise; at end
of input there is no further token, a malformed-token-stream failure
(spec section 7). Returns the token bytes and the remaining input. -/
def lexerNext (data : List Nat) : PResult (List Nat × List Nat) :=
  let rest := data.dropWhile isWhite
  match rest with
  | [] => .err .malformedTokenStream
  | _ => .ok (rest.takeWhile (fun b => !(isWhite b)), rest.dropWhile (fun b => !(isWhite b)))

/-- A decimal-digit byte. -/
def isDigit (b : Nat) : Bool :=
  48 ≤ b && b ≤ 57

/-- Modelled from the spec: the `.to::<ObjNr>()` / `.to::<usize>()`
conversion of a lexed token (outside src/): a non-empty all-digit token
is its decimal value, anything else is a malformed-token-stream failure
(spec section 7: a non-integer token where one was expected). -/
def tokenToNat (tok : List Nat) : PResult Nat :=
  if !tok.isEmpty && tok.all isDigit then
    .ok (tok.foldl (fun acc b => 10 * acc + (b - 48)) 0)
  else
    .err .malformedTokenStream

/-- Embeds the offset-table loop of `ObjectStream::from_primitive`
(stream.rs lines 205-213): read `count` pairs of integer tokens, keep
each pair's second component (the byte offset) in reading order, and
propagate any lexing or conversion failure. -/
def readOffsets : Nat → List Nat → PResult (List Nat)
  | 0, _ => .ok []
  | n + 1, data =>
    match lexerNext data with
    | .ok (t1, d1) =>
      match tokenToNat t1 with
      | .ok _objNr =>
        match lexerNext d1 with
        | .ok (t2, d2) =>
          match tokenToNat t2 with
          | .ok off =>
            match readOffsets n d2 with
            | .ok rest => .ok (off :: rest)
            | .err e => .err e
            | .crash m => .crash m
          | .err e => .err e
          | .crash m => .crash m
        | .err e => .err e
        | .crash m => .crash m
      | .err e => .err e
      | .crash m => .crash m
    | .err e => .err e
    | .crash m => .crash m

/-- Embeds `ObjectStream::from_primitive` (stream.rs lines 201-219):
build the `Stream<ObjStmInfo>`, call `decode` and DISCARD its returned
`Result` while keeping the mutated stream (the source line 203 is
`stream.decode();` with the value dropped), call `get_data` (which
panics when filters remain), then read `num_objects as u64` offset
pairs. -/
def ObjectStream.from_primitive (codec : Codec) (resolve : Resolve)
    (p : Primitive) : PResult ObjectStream := do
  let stream ← Pdf.Stream.from_primitive (ObjStmInfo.from_dict resolve) resolve p
  let stream := (Pdf.Stream.decode codec stream).2
  let d ← Pdf.Stream.get_data stream
  let offsets ← readOffsets (asU64 stream.info.num_objects) d
  pure { stream := stream, offsets := offsets, id := 0 }

/-- The start of the byte range of object `index`
(stream.rs line 241): `first as usize + offsets[index]`. -/
def sliceStart (os : ObjectStream) (index : Nat) : Nat :=
  asU64 os.stream.info.first + os.offsets.getD index 0

/-- The end of the byte range of object `index` (stream.rs lines
242-246): the buffer length for the last entry, otherwise
`first as usize + offsets[index + 1]`. -/
def sliceStop (os : ObjectStream) (index : Nat) : Nat :=
  if index = os.offsets.length - 1 then os.stream.data.length
  else asU64 os.stream.info.first + os.offsets.getD (index + 1) 0

/-- Rust's `&v[start..stop]` range indexing: the sub-list when the range
lies within the buffer, a panic otherwise. -/
def listSlice (v : List Nat) (start stop : Nat) : PResult (List Nat) :=
  if start ≤ stop ∧ stop ≤ v.length then .ok ((v.drop start).take (stop - start))
  else .crash "slice index out of range"

/-- Embeds `ObjectStream::get_object_slice` (stream.rs lines 237-249):
an out-of-bounds error when `index >= offsets.len()`, otherwise the
range-indexed slice of the stream's buffer. -/
def ObjectStream.get_object_slice (os : ObjectStream) (index : Nat) : PResult (List Nat) :=
  if os.offsets.length ≤ index then
    .err (.objStmOutOfBounds index os.offsets.length)
  else
    listSlice os.stream.data (sliceStart os index) (sliceStop os index)

/-- Embeds `ObjectStream::n_objects` (stream.rs lines 251-253). -/
def ObjectStream.n_objects (os : ObjectStream) : Nat :=
  os.offsets.length

/-- The byte values of a string of ASCII characters, for writing concrete
payloads readably. -/
def strBytes (s : String) : List Nat :=
  s.data.map Char.toNat

/-- A resolver with no objects: any lookup fails. The concrete inputs
below contain no indirect references, so it is never consulted. -/
def noResolve : Resolve :=
  fun _ => .err .typeMismatch

/-- A codec that leaves every buffer unchanged; the concrete inputs below
that use it have an empty filter chain, so it is never consulted. -/
def idCodec : Codec :=
  fun _ d => .ok d

/-- A codec whose every filter fails, standing for undecodable input. -/
def failCodec : Codec :=
  fun f _ => .err (.filterDecodeFailure f.kind)

/-- The trivial specialized conversion for `Stream<T>` with `T = Unit`. -/
def unitFrom : Dict → PResult Unit :=
  fun _ => .ok ()

/-- A one-element filter chain standing for an encoded stream. -/
def c1Filter : StreamFilter :=
  { kind := "FlateDecode", params := [] }

/-- A stream whose filter chain is still non-empty. -/
def c1Encoded : Stream Unit :=
  { filters := [c1Filter], file := none, file_filters := [], info := (), data := [1, 2, 3] }

/-- A stream whose filter chain is empty. -/
def c1Plain : Stream Unit :=
  { filters := [], file := none, file_filters := [], info := (), data := [1, 2, 3] }

/-- A stream dictionary declaring Length 5 over 3 raw bytes. -/
def c2BadPrim : Primitive :=
  .stream [("Length", .int 5), ("Filter", .array [])] [1, 2, 3]

/-- A stream dictionary whose declared Length matches its 3 raw bytes. -/
def c2GoodPrim : Primitive :=
  .stream [("Length", .int 3), ("Filter", .array [])] [1, 2, 3]

/-- The canonical payload of the spec's object-stream scenario: the 10
token bytes then 10 object bytes. -/
def c3Data : List Nat :=
  strBytes "1 0 2 3   AAABBBBBBB"

/-- The object-stream primitive of the spec's scenario: 2 objects, first
offset 10, no filters. -/
def c3Prim : Primitive :=
  .stream [("Length", .int 20), ("Filter", .array []), ("N", .int 2), ("First", .int 10)] c3Data

/-- The object stream the scenario constructs. -/
def c3OS : ObjectStream :=
  { stream := { filters := [], file := none, file_filters := [],
                info := { num_objects := 2, first := 10, extends_ := none }, data := c3Data },
    offsets := [0, 3], id := 0 }

/-- A stream with two declared filters, for exercising the decode chain. -/
def c4Stream : Stream Unit :=
  { filters := [{ kind := "A", params := [] }, { kind := "B", params := [] }],
    file := none, file_filters := [], info := (), data := [1, 2] }

/-- A codec in which filter A appends a 9 and filter B fails, so the
chain fails after its first filter has already replaced the buffer. -/
def c4Codec : Codec := fun f d =>
  if f.kind == "A" then .ok (d ++ [9]) else .err (.filterDecodeFailure f.kind)

/-- An object-stream primitive declaring one undecodable filter. -/
def c5Prim : Primitive :=
  .stream [("Length", .int 3), ("Filter", .name "Broken"), ("N", .int 1), ("First", .int 0)]
    [1, 2, 3]

/-- The `Stream<ObjStmInfo>` that `c5Prim` parses to, before decoding. -/
def c5Stream : Stream ObjStmInfo :=
  { filters := [{ kind := "Broken", params := [] }], file := none, file_filters := [],
    info := { num_objects := 1, first := 0, extends_ := none }, data := [1, 2, 3] }

/-- An object-stream primitive whose single offset (900), combined with
First = 10, lies far outside its 10-byte buffer. -/
def c6Prim : Primitive :=
  .stream [("Length", .int 10), ("Filter", .array []), ("N", .int 1), ("First", .int 10)]
    (strBytes "1 900   AB")

/-- The object stream `c6Prim` constructs: in bounds for index checking,
out of bounds for byte-range extraction. -/
def c6BadOS : ObjectStream :=
  { stream := { filters := [], file := none, file_filters := [],
                info := { num_objects := 1, first := 10, extends_ := none },
                data := strBytes "1 900   AB" },
    offsets := [900], id := 0 }

/-- A decoded one-filter stream state, the result of a successful decode
of a stream that declared one filter over the bytes 5. -/
def c7Encoded : Stream Unit :=
  { filters := [{ kind := "A", params := [] }], file := none, file_filters := [],
    info := (), data := [5] }

/-- The state after `c7Encoded` decodes under a codec that appends 9. -/
def c7Decoded : Stream Unit :=
  { filters := [], file := none, file_filters := [], info := (), data := [5, 9] }

/-- A codec that appends a 9 to any buffer, always succeeding. -/
def append9Codec : Codec :=
  fun _ d => .ok (d ++ [9])

/-- A stream dictionary with two filter names and one DecodeParms entry,
so the second filter's parameters must default to the empty mapping. -/
def c8Prim : Primitive :=
  .stream [("Length", .int 1), ("Filter", .array [.name "A", .name "B"]),
           ("DecodeParms", .array [.dict [("K", .int 1)]])] [7]

/-- The stream `c8Prim` parses to. -/
def c8Stream : Stream Unit :=
  { filters := [{ kind := "A", params := [("K", .int 1)] }, { kind := "B", params := [] }],
    file := none, file_filters := [], info := (), data := [7] }

/-- An object-stream primitive declaring 3 objects over a payload that
holds only 2 integer pairs before non-integer bytes begin. -/
def c9Prim : Primitive :=
  .stream [("Length", .int 20), ("Filter", .array []), ("N", .int 3), ("First", .int 10)] c3Data

/-- When the filter loop of `Stream::decode` completes successfully, the
final buffer is exactly the left-to-right chain application of the
declared filters. -/
theorem runFilters_ok_spec {codec : Codec} :
    ∀ (fs : List StreamFilter) (d d' : List Nat),
      runFilters codec fs d = (.ok (), d') → specChainDecode codec fs d = .ok d' := by
  intro fs
  induction fs with
  | nil =>
    intro d d' h
    simp only [runFilters, Prod.mk.injEq, true_and] at h
    simp [specChainDecode, h]
  | cons f fs ih =>
    intro d d' h
    simp only [runFilters] at h
    cases hc : codec f d with
    | ok d2 =>
      rw [hc] at h
      simpa [specChainDecode, hc] using ih d2 d' h
    | err e => rw [hc] at h; simp at h
    | crash m => rw [hc] at h; simp at h

/-- When the filter loop of `Stream::decode` stops at a failing filter,
the chain application fails with that filter's error, and the buffer held
at that moment is the chain application of the successful prefix. -/
theorem runFilters_err_spec {codec : Codec} :
    ∀ (fs : List StreamFilter) (d : List Nat) (e : PdfError) (d' : List Nat),
      runFilters codec fs d = (.err e, d') →
        specChainDecode codec fs d = .err e ∧
        ∃ pre f post, fs = pre ++ f :: post ∧
          specChainDecode codec pre d = .ok d' ∧ codec f d' = .err e := by
  intro fs
  induction fs with
  | nil =>
    intro d e d' h
    simp [runFilters] at h
  | cons f fs ih =>
    intro d e d' h
    simp only [runFilters] at h
    cases hc : codec f d with
    | ok d2 =>
      rw [hc] at h
      obtain ⟨h1, pre, g, post, hsplit, hpre, hfail⟩ := ih d2 e d' h
      exact ⟨by simp [specChainDecode, hc, h1], f :: pre, g, post, by simp [hsplit],
        by simp [specChainDecode, hc, hpre], hfail⟩
    | err e0 =>
      rw [hc] at h
      simp only [Prod.mk.injEq, PResult.err.injEq] at h
      obtain ⟨rfl, rfl⟩ := h
      exact ⟨by simp [specChainDecode, hc], [], f, fs, rfl, rfl, hc⟩
    | crash m => rw [hc] at h; simp at h

/-- The offset-table loop returns exactly as many offsets as it was asked
to read. -/
theorem readOffsets_length :
    ∀ (count : Nat) (data offs : List Nat),
      readOffsets count data = .ok offs → offs.length = count := by
  intro count
  induction count with
  | zero =>
    intro data offs h
    simp only [readOffsets, PResult.ok.injEq] at h
    simp [← h]
  | succ n ih =>
    intro data offs h
    simp only [readOffsets] at h
    repeat' split at h
    all_goals cases h
    all_goals rename_i heq
    all_goals simp [List.length_cons, ih _ _ heq]

/-- The filter-chain construction loop of `Stream::from_primitive`
succeeds, returns one descriptor per declared name in declared order, and
pairs index `i` with `params.get(i)` or the empty dictionary. -/
theorem buildFiltersAux_spec (params : List Dict) :
    ∀ (names : List String) (k : Nat),
      ∃ l, buildFiltersAux params names k = .ok l ∧ l.length = names.length ∧
        ∀ i : Nat, l[i]? = (names[i]?).map
          (fun n => ({ kind := n, params := (params[k + i]?).getD [] } : StreamFilter)) := by
  intro names
  induction names with
  | nil =>
    intro k
    exact ⟨[], rfl, rfl, by intro i; simp⟩
  | cons n ns ih =>
    intro k
    obtain ⟨l, hl, hlen, hget⟩ := ih (k + 1)
    refine ⟨{ kind := n, params := (params[k]?).getD [] } :: l, ?_, by simp [hlen], ?_⟩
    · simp [buildFiltersAux, StreamFilter.from_kind_and_params, hl]
    · intro i
      cases i with
      | zero => simp
      | succ j =>
        have hk : k + (j + 1) = (k + 1) + j := by omega
        simp only [List.getElem?_cons_succ, hk]
        exact hget j

/-- Claim C1: the canonical-data accessor `get_data` panics (crashes)
when the filter chain is non-empty, rather than returning a recoverable
NotDecoded error; with an empty filter chain it returns the stored byte
buffer. Evaluates `Stream::get_data` at both kinds of input. -/
theorem c1_get_data_behavior :
    Stream.get_data c1Encoded = .crash "Data not decoded! Consider using get_data_raw" ∧
    Stream.get_data c1Plain = .ok [1, 2, 3] :=
  ⟨rfl, rfl⟩

/-- Claim C2: `Stream::from_primitive` checks the declared Length against
the raw byte count with `assert_eq!`, so a mismatch panics (crashes)
instead of returning a LengthMismatch error; when the two agree,
construction proceeds. Evaluates the constructor at both kinds of
input. -/
theorem c2_length_check_behavior :
    Stream.from_primitive unitFrom noResolve c2BadPrim
        = .crash "assertion failed: length == stream.data.len()" ∧
    Stream.from_primitive unitFrom noResolve c2GoodPrim
        = .ok { filters := [], file := none, file_filters := [], info := (), data := [1, 2, 3] } :=
  ⟨rfl, rfl⟩

/-- Claim C3: on the canonical scenario (2 objects, first = 10, payload
the 10 token bytes then the 10 object bytes) the constructed object
stream has offsets [0, 3], extracts AAA at index 0 and BBBBBBB at index
1 (the last slice reaching end of buffer), reports 2 objects, and fails
at index 2 with an out-of-bounds error carrying index 2 and count 2; in
general any index at or past the offset count fails with the
out-of-bounds error carrying that index and the current count. -/
theorem c3_object_stream_scenario :
    ObjectStream.from_primitive idCodec noResolve c3Prim = .ok c3OS ∧
    c3OS.offsets = [0, 3] ∧
    ObjectStream.get_object_slice c3OS 0 = .ok (strBytes "AAA") ∧
    ObjectStream.get_object_slice c3OS 1 = .ok (strBytes "BBBBBBB") ∧
    ObjectStream.n_objects c3OS = 2 ∧
    ObjectStream.get_object_slice c3OS 2 = .err (.objStmOutOfBounds 2 2) ∧
    ∀ (os : ObjectStream) (index : Nat), os.offsets.length ≤ index →
      ObjectStream.get_object_slice os index = .err (.objStmOutOfBounds index os.offsets.length) := by
  refine ⟨rfl, rfl, rfl, rfl, rfl, rfl, ?_⟩
  intro os index h
  unfold ObjectStream.get_object_slice
  rw [if_pos h]

/-- Witness for C3: the out-of-bounds branch at the concrete index 5 on
the scenario's object stream. -/
theorem c3_object_stream_scenario_witness :
    ObjectStream.get_object_slice c3OS 5 = .err (.objStmOutOfBounds 5 2) :=
  c3_object_stream_scenario.2.2.2.2.2.2 c3OS 5 (by decide)

/-- Counterexample to C4 as stated: under a codec whose first filter
succeeds (appending a 9) and whose second fails, `Stream::decode` returns
the second filter's error but the stream's data buffer is NOT left
unchanged, holding the first filter's output instead. -/
theorem c4_counterexample :
    Stream.decode c4Codec c4Stream
        = (.err (.filterDecodeFailure "B"), { c4Stream with data := [1, 2, 9] }) ∧
    (Stream.decode c4Codec c4Stream).2.data ≠ c4Stream.data :=
  ⟨rfl, by decide⟩

/-- Claim C4 (amended): `Stream::decode` applies the filters in declared
left-to-right order, each transforming the previous buffer; on the first
failing filter it aborts immediately and propagates that filter's error,
leaving the filter list unchanged, but the data buffer then holds the
output of the filters already applied (the chain application of the
successful prefix), not the original bytes. -/
theorem c4_decode_chain {T : Type} (codec : Codec) (s : Stream T) :
    (∀ s' : Stream T, Stream.decode codec s = (.ok (), s') →
      s'.filters = [] ∧ s'.info = s.info ∧
      specChainDecode codec s.filters s.data = .ok s'.data) ∧
    (∀ (e : PdfError) (s' : Stream T), Stream.decode codec s = (.err e, s') →
      s'.filters = s.filters ∧ s'.info = s.info ∧
      specChainDecode codec s.filters s.data = .err e ∧
      ∃ pre f post, s.filters = pre ++ f :: post ∧
        specChainDecode codec pre s.data = .ok s'.data ∧ codec f s'.data = .err e) := by
  constructor
  · intro s' h
    unfold Stream.decode at h
    split at h
    · rename_i d hr
      injection h with h1 h2
      subst h2
      exact ⟨rfl, rfl, runFilters_ok_spec _ _ _ hr⟩
    · simp at h
    · simp at h
  · intro e s' h
    unfold Stream.decode at h
    split at h
    · simp at h
    · rename_i e0 d hr
      injection h with h1 h2
      injection h1 with h1
      subst h1
      subst h2
      obtain ⟨hchain, pre, f, post, hsplit, hpre, hfail⟩ := runFilters_err_spec _ _ _ _ hr
      exact ⟨rfl, rfl, hchain, pre, f, post, hsplit, hpre, hfail⟩
    · simp at h

/-- Witness for C4 (amended): the error bullet applied to the concrete
two-filter stream whose second filter fails. -/
theorem c4_decode_chain_witness :
    (Stream.decode c4Codec c4Stream).2.filters = c4Stream.filters ∧
    (Stream.decode c4Codec c4Stream).2.info = c4Stream.info ∧
    specChainDecode c4Codec c4Stream.filters c4Stream.data = .err (.filterDecodeFailure "B") ∧
    ∃ pre f post, c4Stream.filters = pre ++ f :: post ∧
      specChainDecode c4Codec pre c4Stream.data = .ok (Stream.decode c4Codec c4Stream).2.data ∧
      c4Codec f (Stream.decode c4Codec c4Stream).2.data = .err (.filterDecodeFailure "B") :=
  (c4_decode_chain c4Codec c4Stream).2 (.filterDecodeFailure "B")
    (Stream.decode c4Codec c4Stream).2 rfl

/-- Claim C5: `ObjectStream::from_primitive` does decode eagerly before
tokenizing, but it DISCARDS the decode call's Result (line 203 drops the
value), so a decode failure does not surface as an error: the stream
parses fine, its decode fails with the filter's error, yet the
constructor crashes in the subsequent `get_data` panic instead of
returning that error. Evaluates the constructor at an input whose only
filter fails to decode. -/
theorem c5_decode_error_swallowed :
    Stream.from_primitive (ObjStmInfo.from_dict noResolve) noResolve c5Prim = .ok c5Stream ∧
    (Stream.decode failCodec c5Stream).1 = .err (.filterDecodeFailure "Broken") ∧
    ObjectStream.from_primitive failCodec noResolve c5Prim
        = .crash "Data not decoded! Consider using get_data_raw" :=
  ⟨rfl, rfl, rfl⟩

/-- Counterexample to C6 as stated: an object stream built by
`ObjectStream::from_primitive` whose single offset (900) combined with
First = 10 yields the range 910..10 over a 10-byte buffer; extraction at
the in-range index 0 crashes on the slice bounds check instead of
returning a typed failure. -/
theorem c6_counterexample :
    ObjectStream.from_primitive idCodec noResolve c6Prim = .ok c6BadOS ∧
    sliceStart c6BadOS 0 = 910 ∧
    sliceStop c6BadOS 0 = 10 ∧
    c6BadOS.stream.data.length = 10 ∧
    ObjectStream.get_object_slice c6BadOS 0 = .crash "slice index out of range" :=
  ⟨rfl, rfl, rfl, rfl, rfl⟩

/-- Claim C6 (amended): for an in-range index whose computed byte range
does not lie within the data buffer, `get_object_slice` panics on the
slice bounds check at extraction time (no unchecked out-of-bounds read,
but a crash rather than a typed failure); when the range does lie within
the buffer it returns the slice. -/
theorem c6_extraction_bounds (os : ObjectStream) (index : Nat)
    (h : index < os.offsets.length) :
    (sliceStart os index ≤ sliceStop os index ∧
        sliceStop os index ≤ os.stream.data.length →
      ObjectStream.get_object_slice os index =
        .ok ((os.stream.data.drop (sliceStart os index)).take
              (sliceStop os index - sliceStart os index))) ∧
    (¬(sliceStart os index ≤ sliceStop os index ∧
        sliceStop os index ≤ os.stream.data.length) →
      ObjectStream.get_object_slice os index = .crash "slice index out of range") := by
  have hn : ¬ os.offsets.length ≤ index := Nat.not_le.mpr h
  constructor
  · intro hc
    unfold ObjectStream.get_object_slice listSlice
    rw [if_neg hn, if_pos hc]
  · intro hc
    unfold ObjectStream.get_object_slice listSlice
    rw [if_neg hn, if_neg hc]

/-- Witness for C6 (amended): the crash branch at the concrete
out-of-range object stream. -/
theorem c6_extraction_bounds_witness :
    ObjectStream.get_object_slice c6BadOS 0 = .crash "slice index out of range" :=
  (c6_extraction_bounds c6BadOS 0 (by decide)).2 (by decide)

/-- Claim C7: with an empty filter chain `Stream::decode` is a no-op
returning success with the stream unchanged; after any successful decode
the filter chain is empty, a second decode is a true no-op, and the
canonical-data accessor succeeds. -/
theorem c7_decode_noop {T : Type} (codec : Codec) (s : Stream T) :
    (s.filters = [] → Stream.decode codec s = (.ok (), s)) ∧
    (∀ s' : Stream T, Stream.decode codec s = (.ok (), s') →
      s'.filters = [] ∧ Stream.decode codec s' = (.ok (), s') ∧
      Stream.get_data s' = .ok s'.data) := by
  constructor
  · intro h
    obtain ⟨fs, fl, ffl, i, d⟩ := s
    simp only at h
    subst h
    rfl
  · intro s' h
    unfold Stream.decode at h
    split at h
    · rename_i d hr
      injection h with h1 h2
      subst h2
      exact ⟨rfl, rfl, rfl⟩
    · simp at h
    · simp at h

/-- Witness for C7: both bullets at concrete inputs, a filterless stream
and a one-filter stream decoded by a codec that appends a 9. -/
theorem c7_decode_noop_witness :
    Stream.decode append9Codec c1Plain = (.ok (), c1Plain) ∧
    (c7Decoded.filters = [] ∧ Stream.decode append9Codec c7Decoded = (.ok (), c7Decoded) ∧
      Stream.get_data c7Decoded = .ok c7Decoded.data) :=
  ⟨(c7_decode_noop append9Codec c1Plain).1 rfl,
   (c7_decode_noop append9Codec c7Encoded).2 c7Decoded rfl⟩

/-- Claim C8: the filter-descriptor list built by
`Stream::from_primitive` has one descriptor per declared filter name, in
declared order, and descriptor i carries the i-th DecodeParms entry or
the empty mapping when that entry is absent; checked end to end on a
stream with two filters and one parameter entry, and in general on the
construction loop. -/
theorem c8_filter_chain_zip :
    Stream.from_primitive unitFrom noResolve c8Prim = .ok c8Stream ∧
    ∀ (names : List String) (ds : List Dict),
      ∃ l, buildFilters names ds = .ok l ∧ l.length = names.length ∧
        ∀ i : Nat, l[i]? = (names[i]?).map
          (fun n => ({ kind := n, params := (ds[i]?).getD [] } : StreamFilter)) := by
  refine ⟨rfl, ?_⟩
  intro names ds
  obtain ⟨l, hl, hlen, hget⟩ := buildFiltersAux_spec ds names 0
  exact ⟨l, hl, hlen, by intro i; simpa using hget i⟩

/-- Claim C9: an object stream declaring 3 objects over a payload holding
only 2 integer pairs fails with the malformed-token-stream error rather
than yielding a truncated offset table; and whenever the offset-table
loop succeeds it returns exactly the requested number of offsets, in the
order read. -/
theorem c9_token_stream :
    ObjectStream.from_primitive idCodec noResolve c9Prim = .err .malformedTokenStream ∧
    ∀ (count : Nat) (data offs : List Nat),
      readOffsets count data = .ok offs → offs.length = count :=
  ⟨rfl, readOffsets_length⟩

/-- Witness for C9: the length law at the concrete two-pair payload. -/
theorem c9_token_stream_witness : ([0, 3] : List Nat).length = 2 :=
  c9_token_stream.2 2 c3Data [0, 3] rfl

/-- Claim C10: `get_data_raw` is total, returning the currently stored
buffer whatever the filter chain holds: when filters remain (and
`get_data` would panic) it still returns the raw bytes, and when the
chain is empty it agrees with `get_data`. -/
theorem c10_get_data_raw_total {T : Type} (s : Stream T) :
    Stream.get_data_raw s = s.data ∧
    (0 < s.filters.length →
      Stream.get_data s = .crash "Data not decoded! Consider using get_data_raw" ∧
      Stream.get_data_raw s = s.data) ∧
    (s.filters.length = 0 → Stream.get_data s = .ok (Stream.get_data_raw s)) := by
  refine ⟨rfl, ?_, ?_⟩
  · intro h
    exact ⟨by unfold Stream.get_data Stream.get_filters; rw [if_pos h], rfl⟩
  · intro h
    simp [Stream.get_data, Stream.get_filters, Stream.get_data_raw, h]

/-- Witness for C10: both branches at concrete streams, one still
encoded and one with an empty filter chain. -/
theorem c10_get_data_raw_total_witness :
    Stream.get_data_raw c1Encoded = [1, 2, 3] ∧
    Stream.get_data c1Encoded = .crash "Data not decoded! Consider using get_data_raw" ∧
    Stream.get_data c1Plain = .ok [1, 2, 3] :=
  ⟨(c10_get_data_raw_total c1Encoded).1,
   ((c10_get_data_raw_total c1Encoded).2.1 (by decide)).1,
   (c10_get_data_raw_total c1Plain).2.2 (by decide)⟩

end Pdf
